import Mathlib

/-!
Verification of create-blockchain-dapp: the scaffolding pipeline
(`src/main.js`) and the command line front end (`src/cli.js`).

The two modules are embedded as pure functions. Everything the program asks of
the outside (file system, subprocesses, the package installer, the prompt, the
argument parser, the clock) is a field of `World` or an explicit parameter, and
every externally visible action is recorded as an `Event`, so that "was never
invoked" and "still executes" are statements about the event list of a run.
A call can end in four ways: it returns, it calls `process.exit`, its promise
rejects, or the process is ended by an uncaught exception (the `error` event
of a stream that has no listener).

JavaScript values that may be `undefined` are `Option`s; `a || b` is `jsOr`.
-/

namespace Dapp

/-! ## JavaScript values -/

/-- A value that is thrown or that a promise rejects with. Only its `message`
property is observable here; it is absent (`none`) on a value that is not an
Error object, such as the array of errors that ncp rejects with. -/
structure JsError where
  message : Option String
  deriving DecidableEq, Repr

/-- The array of the errors collected by ncp, as a rejection value: an array
has no `message` property. -/
def JsError.ofArray (_ : List JsError) : JsError :=
  { message := none }

/-- JavaScript truthiness of a value of a given type. -/
class Truthy (α : Type) where
  truthy : α → Bool

instance : Truthy Bool := ⟨fun b => b⟩

/-- A string is falsy exactly when it is empty. -/
instance : Truthy String := ⟨fun s => !(s == "")⟩

/-- The value `undefined` (`none`) is falsy. -/
instance {α : Type} [Truthy α] : Truthy (Option α) :=
  ⟨fun o => match o with
    | none => false
    | some a => Truthy.truthy a⟩

/-- The expression `a || b`: `a` when `a` is truthy, `b` otherwise. -/
def jsOr {α : Type} [Truthy α] (a b : α) : α :=
  if Truthy.truthy a then a else b

/-- The expression `a || d` where `a` may be `undefined` and `d` is a proper
value of the type. -/
def orDefault {α : Type} [Truthy α] (a : Option α) (d : α) : α :=
  match a with
  | some v => if Truthy.truthy v then v else d
  | none => d

/-! ## Observable actions -/

/-- A string or boolean literal. -/
inductive Literal
  | str (value : String)
  | bool (value : Bool)
  deriving DecidableEq, Repr

/-- One entry of the question list handed to `inquirer.prompt`; `choices` is
absent (`none`) on a question that declares none. -/
structure Question where
  type : String
  name : String
  message : String
  choices : Option (List String)
  default : Literal
  deriving DecidableEq, Repr

/-- An externally visible action of the program, in the order performed. -/
inductive Event
  | consoleLog (line : String)
  | consoleError (line : String)
  | animation (kind : String) (text : String)
  | prompt (questions : List Question)
  | access (path : String)
  | processExit (code : Nat)
  | ncp (source : String) (destination : String) (clobber : Bool)
  | createWriteStream (path : String) (flags : String)
  | writeGitignore (type : String) (file : String)
  | writeFile (path : String) (content : String) (encoding : String)
  | execa (command : String) (args : List String) (cwd : String)
  | projectInstall (cwd : String)
  deriving DecidableEq, Repr

/-- The settled result object of an `execa` call. -/
structure ExecaResult where
  failed : Bool
  deriving DecidableEq, Repr

/-- What the outside world answers to each request of `main.js`. A promise
that rejects is `Except.error`. -/
structure World where
  /-- Value of `process.cwd()`. -/
  cwd : String
  /-- Value of `new URL(import.meta.url).pathname`. -/
  modulePathname : String
  /-- Value of `new Date().getFullYear()`. -/
  year : Nat
  /-- Value of `licenseText` of the MIT entry of spdx-license-list. -/
  licenseText : String
  /-- Function `path.resolve`. -/
  pathResolve : List String → String
  /-- Function `path.join` on two segments. -/
  pathJoin : String → String → String
  /-- Method `String.prototype.toLowerCase`. -/
  toLowerCase : String → String
  /-- Function `chalk.<style>(text)`. -/
  chalk : String → String → String
  /-- Promisified `fs.access(path, fs.constants.R_OK)`. -/
  access : String → Except JsError Unit
  /-- Promisified `ncp(source, destination, options)`: without `stopOnError`
  ncp collects the errors it meets and calls back with their array. -/
  ncp : String → String → Except (List JsError) Unit
  /-- The `error` event, if any, emitted by the stream that
  `fs.createWriteStream(path, flags)` returns, as when the path cannot be
  opened; `none` when the stream never emits one. -/
  streamError : String → Option JsError
  /-- Promisified `gitignore.writeFile` on the stream opened at a path. -/
  writeGitignore : String → Except JsError Unit
  /-- Promisified `fs.writeFile(path, content, "utf8")`. -/
  writeFile : String → String → Except JsError Unit
  /-- Call `execa(command, args, cwd)`: the promise it returns may reject, or
  resolve with a result object. -/
  execa : String → List String → String → Except JsError ExecaResult
  /-- Call `projectInstall` of pkg-install in a working directory. -/
  projectInstall : String → Except JsError Unit

/-- The actions performed by an asynchronous call together with the way its
promise settles. When `died` is set the process is ended during the call by
that uncaught exception, whatever the promise would have settled to. -/
structure Eff where
  events : List Event
  result : Except JsError Unit
  died : Option JsError := none

/-! ## Option records -/

/-- The options object built by `cli.js` and received by
`createBlockchainDapp`. -/
structure Options where
  skipPrompts : Option Bool
  git : Option Bool
  template : Option String
  runInstall : Option Bool
  targetDirectory : Option String := none
  deriving DecidableEq, Repr

/-- The options object of `createBlockchainDapp` after lines 53-66 of
`main.js`: the received fields plus `targetDirectory`, `email`, `name` and
`templateDirectory`. -/
structure Config where
  skipPrompts : Option Bool
  git : Option Bool
  template : String
  runInstall : Option Bool
  targetDirectory : String
  email : String
  name : String
  templateDirectory : String
  deriving DecidableEq, Repr

/-! ## main.js: the step library -/

/-- JavaScript `s.replace(pattern, replacement)` for a string pattern: only the
first occurrence is replaced. -/
def replaceFirst (s pattern replacement : String) : String :=
  match s.splitOn pattern with
  | [] => s
  | [_] => s
  | head :: rest => head ++ replacement ++ pattern.intercalate rest

/-- JavaScript `s.substring(s.indexOf("/"))`: the suffix starting at the first
slash, the whole string when there is none. -/
def substringFromFirstSlash (s : String) : String :=
  if s.toList.contains '/' then String.mk (s.toList.dropWhile (fun c => c != '/')) else s

/-- Step action `copyTemplateFiles` of `main.js`. -/
def copyTemplateFiles (W : World) (options : Config) : Eff :=
  { events := [Event.ncp options.templateDirectory options.targetDirectory false]
    result :=
      match W.ncp options.templateDirectory options.targetDirectory with
      | .ok _ => .ok ()
      | .error errors => .error (JsError.ofArray errors) }

/-- Step action `createGitignore` of `main.js`. The write stream is created
without a listener for its `error` event, so an error the stream emits is an
uncaught exception that ends the process. -/
def createGitignore (W : World) (options : Config) : Eff :=
  let file := W.pathJoin options.targetDirectory ".gitignore"
  { events := [Event.createWriteStream file "a", Event.writeGitignore "Node" file]
    result := W.writeGitignore file
    died := W.streamError file }

/-- Step action `createLicense` of `main.js`. -/
def createLicense (W : World) (options : Config) : Eff :=
  let targetPath := W.pathJoin options.targetDirectory "LICENSE"
  let licenseContent :=
    replaceFirst (replaceFirst W.licenseText "<year>" (toString W.year))
      "<copyright holders>" (options.name ++ " (" ++ options.email ++ ")")
  { events := [Event.writeFile targetPath licenseContent "utf8"]
    result := W.writeFile targetPath licenseContent }

/-- Step action `initGit` of `main.js`: awaits `execa("git", ["init"], cwd)`; a
rejection of that promise propagates, a resolved result with `failed` set is
turned into the error "Failed to initialize git". -/
def initGit (W : World) (options : Config) : Eff :=
  { events := [Event.execa "git" ["init"] options.targetDirectory]
    result :=
      match W.execa "git" ["init"] options.targetDirectory with
      | .error e => .error e
      | .ok result =>
        if result.failed then .error ⟨"Failed to initialize git"⟩ else .ok () }

/-- Action of the "Install dependencies" task. -/
def installDependencies (W : World) (options : Config) : Eff :=
  { events := [Event.projectInstall options.targetDirectory]
    result := W.projectInstall options.targetDirectory }

/-- Predicate `skip` of the "Install dependencies" task. -/
def installSkip (options : Config) : Option String :=
  if !(Truthy.truthy options.runInstall) then
    some "Pass --install to automatically install dependencies"
  else none

/-! ## The listr task runner -/

/-- A task object as passed to `new Listr([...])`. -/
structure Task where
  title : String
  task : Unit → Eff
  enabled : Option (Unit → Option Bool) := none
  skip : Option (Unit → Option String) := none

/-- State of a task that was started: `pending` while its action has not
settled, then one of the three final states, with the output shown. -/
inductive TaskState
  | pending
  | completed
  | skipped (output : Option String)
  | failed (output : Option String)
  deriving DecidableEq, Repr

/-- A task without an `enabled` function is enabled; otherwise the value the
function returns decides by truthiness. -/
def Task.isEnabled (t : Task) : Bool :=
  match t.enabled with
  | none => true
  | some f => Truthy.truthy (f ())

/-- Value of the task's `skip` function; a task without one is never skipped. -/
def Task.skipValue (t : Task) : Option String :=
  match t.skip with
  | none => none
  | some f => f ()

/-- Outcome of running one enabled task: its actions, its state, the error it
reported, if any, and the uncaught exception that ended the process during
it, if any. -/
structure TaskRun where
  events : List Event
  state : TaskState
  error : Option JsError
  died : Option JsError

/-- Run of one enabled task by the listr package (its `Task.run`): a truthy
skip value marks the task skipped, with the value as output, without calling
its action; otherwise the action is called and the task is completed, or
failed with the `message` of the rejection value as output, the value being
reported to the run. A task during whose action the process ends is left
pending. -/
def Task.run (t : Task) : TaskRun :=
  let skipped := t.skipValue
  if Truthy.truthy skipped then
    { events := [], state := .skipped skipped, error := none, died := none }
  else
    let r := t.task ()
    match r.died with
    | some e => { events := r.events, state := .pending, error := none, died := some e }
    | none =>
      match r.result with
      | .ok _ => { events := r.events, state := .completed, error := none, died := none }
      | .error e =>
        { events := r.events, state := .failed e.message, error := some e, died := none }

/-- Accumulated outcome of a task list: the actions performed, the final
states reached, in order, the errors reported, the error rethrown by a task
and the uncaught exception that ended the process, if any. -/
structure ListrRun where
  events : List Event
  report : List (String × TaskState)
  errors : List JsError
  thrown : Option JsError
  died : Option JsError

/-- Sequential run of a task list by the listr package (the loop of its `run`,
with the default concurrency of one). A task whose `enabled` value is falsy is
passed over: it is neither run nor given a state. The error of a failed task
is added to the error list of the run; the task rethrows it, which ends the
run at once, unless `exitOnError` is `false`. Nothing follows a task during
which the process ends. -/
def Listr.runTasks (exitOnError : Bool) : List Task → ListrRun
  | [] => { events := [], report := [], errors := [], thrown := none, died := none }
  | t :: ts =>
    if !t.isEnabled then Listr.runTasks exitOnError ts
    else
      let r := t.run
      match r.died with
      | some e =>
        { events := r.events, report := [], errors := [], thrown := none, died := some e }
      | none =>
        match r.error with
        | some e =>
          if exitOnError then
            { events := r.events, report := [(t.title, r.state)], errors := [e]
              thrown := some e, died := none }
          else
            let rest := Listr.runTasks exitOnError ts
            { events := r.events ++ rest.events
              report := (t.title, r.state) :: rest.report
              errors := e :: rest.errors
              thrown := rest.thrown
              died := rest.died }
        | none =>
          let rest := Listr.runTasks exitOnError ts
          { events := r.events ++ rest.events
            report := (t.title, r.state) :: rest.report
            errors := rest.errors
            thrown := rest.thrown
            died := rest.died }

/-- Settlement of the promise returned by `run()` of the listr package: an
error rethrown by a task rejects it; otherwise, when the error list of the run
is not empty, it rejects with the aggregate `ListrError` "Something went
wrong", also when `exitOnError` is `false`; otherwise it resolves. -/
def Listr.settle (r : ListrRun) : Except JsError Unit :=
  match r.thrown with
  | some e => .error e
  | none => if r.errors.isEmpty then .ok () else .error ⟨"Something went wrong"⟩

/-! ## main.js: createBlockchainDapp -/

/-- How a call of `createBlockchainDapp` ends: it returns, it calls
`process.exit`, its promise rejects, or the process is ended under it by an
uncaught exception. -/
inductive Completion
  | returned (value : Bool)
  | exited (code : Nat)
  | rejected (error : JsError)
  | crashed (exception : JsError)
  deriving DecidableEq, Repr

/-- A run of `createBlockchainDapp`: its actions, the final states of the tasks
that reached one (absent when the task list was never run) and how the call
ends. -/
structure MainRun where
  events : List Event
  report : Option (List (String × TaskState))
  completion : Completion

/-- The options object after lines 53-66 of `main.js`, for a template name. -/
def configOf (W : World) (options : Options) (template : String) : Config :=
  { skipPrompts := options.skipPrompts
    git := options.git
    template := template
    runInstall := options.runInstall
    targetDirectory := orDefault options.targetDirectory W.cwd
    email := "anishprashun118@gmail.com"
    name := "Anish Prashun"
    templateDirectory :=
      W.pathResolve [substringFromFirstSlash W.modulePathname, "../../templates",
        W.toLowerCase template] }

/-- The task list declared in `createBlockchainDapp`. -/
def taskList (W : World) (options : Config) : List Task :=
  [ { title := "Copy project files", task := fun _ => copyTemplateFiles W options },
    { title := "Create gitignore", task := fun _ => createGitignore W options },
    { title := "Create License", task := fun _ => createLicense W options },
    { title := "Initialize git", task := fun _ => initGit W options,
      enabled := some (fun _ => options.git) },
    { title := "Install dependencies", task := fun _ => installDependencies W options,
      skip := some (fun _ => installSkip options) } ]

/-- Function `createBlockchainDapp` of `main.js`. -/
def createBlockchainDapp (W : World) (options : Options) : MainRun :=
  match options.template with
  | none =>
    { events := [], report := none
      completion := .rejected ⟨"Cannot read properties of undefined (reading toLowerCase)"⟩ }
  | some template =>
    let options := configOf W options template
    match W.access options.templateDirectory with
    | .error _ =>
      { events := [Event.access options.templateDirectory,
          Event.consoleError (W.chalk "red.bold" "ERROR" ++ " Invalid template name"),
          Event.processExit 1]
        report := none
        completion := .exited 1 }
    | .ok _ =>
      let run := Listr.runTasks false (taskList W options)
      match run.died with
      | some e =>
        { events := Event.access options.templateDirectory :: run.events
          report := some run.report
          completion := .crashed e }
      | none =>
        match Listr.settle run with
        | .error e =>
          { events := Event.access options.templateDirectory :: run.events
            report := some run.report
            completion := .rejected e }
        | .ok _ =>
          { events := Event.access options.templateDirectory :: run.events ++
              [Event.consoleLog (W.chalk "green.bold" "DONE" ++ " Dapp ready")]
            report := some run.report
            completion := .returned true }

/-! ## cli.js -/

/-- The object returned by `arg` for the flag table of `cli.js`: each Boolean
flag is `undefined` when absent, and `positional` is the array `args._`. -/
structure ArgResult where
  yes : Option Bool
  git : Option Bool
  install : Option Bool
  positional : List String
  deriving DecidableEq, Repr

/-- Function `parseArgumentsIntoOptions` of `cli.js`, over the parser `arg`,
which may throw on an argument vector it does not accept. -/
def parseArgumentsIntoOptions (arg : List String → Except JsError ArgResult)
    (rawArgs : List String) : Except JsError Options :=
  match arg (rawArgs.drop 2) with
  | .error e => .error e
  | .ok args =>
    .ok { skipPrompts := some (orDefault args.yes false)
          git := some (orDefault args.git false)
          template := args.positional.head?
          runInstall := some (orDefault args.install true) }

/-- The answers object resolved by `inquirer.prompt`. -/
structure Answers where
  template : Option String
  git : Option Bool
  deriving DecidableEq, Repr

/-- The template question of `promptForMissingOptions`. -/
def templateQuestion : Question :=
  { type := "list", name := "template"
    message := "Please choose which Dapp template to use"
    choices := some ["React-hardhat"], default := .str "basic" }

/-- The git question of `promptForMissingOptions`. -/
def gitQuestion : Question :=
  { type := "confirm", name := "git"
    message := "Should a git be initialized?"
    choices := none, default := .bool false }

/-- The question list built at lines 37-55 of `cli.js`. -/
def questionsFor (options : Options) : List Question :=
  (if !(Truthy.truthy options.template) then [templateQuestion] else []) ++
  (if !(Truthy.truthy options.git) then [gitQuestion] else [])

/-- Function `promptForMissingOptions` of `cli.js`, over the interactive
provider `inquirer.prompt`: the actions performed and the options returned. -/
def promptForMissingOptions (prompt : List Question → Answers) (options : Options) :
    List Event × Options :=
  let defaultTemplate := "basic"
  if Truthy.truthy options.skipPrompts then
    ([], { options with template := jsOr options.template (some defaultTemplate) })
  else
    let questions := questionsFor options
    let answers := prompt questions
    ([Event.prompt questions],
      { options with
        template := jsOr options.template answers.template
        git := jsOr options.git answers.git })

/-- What an identifier of `cli.js` is bound to. -/
inductive Binding
  | pipeline (run : Options → MainRun)
  | other

/-- The bindings of the module `cli.js`: its four imports and its three
top-level declarations. Any other identifier is unbound. -/
def cliScope (W : World) (identifier : String) : Option Binding :=
  if identifier = "createBlockchainDapp" then some (.pipeline (createBlockchainDapp W))
  else if identifier ∈ ["arg", "inquirer", "chalkAnimation", "parseArgumentsIntoOptions",
      "promptForMissingOptions", "cli"] then some .other
  else none

/-- How a call of `cli` ends. -/
inductive CliCompletion
  | resolved
  | exited (code : Nat)
  | rejected (error : JsError)
  | crashed (exception : JsError)
  deriving DecidableEq, Repr

/-- A run of `cli`: its own actions, the pipeline run started at line 73 (when
one is started) and how the call ends. -/
structure CliRun where
  events : List Event
  pipeline : Option MainRun
  completion : CliCompletion

/-- The actions of `cli` before the options are parsed. -/
def cliGreeting : List Event :=
  [Event.animation "rainbow" "\nCreate-blockchain-Dapp\n",
   Event.consoleLog "Welcome to Full-Stack Dapp Creator.",
   Event.consoleLog ""]

/-- Function `cli` of `cli.js`. Line 73 calls the identifier `createProject`
on the resolved options; evaluating an unbound identifier raises a
ReferenceError. -/
def cli (W : World) (arg : List String → Except JsError ArgResult)
    (prompt : List Question → Answers) (args : List String) : CliRun :=
  match parseArgumentsIntoOptions arg args with
  | .error e => { events := cliGreeting, pipeline := none, completion := .rejected e }
  | .ok parsed =>
    let resolved := promptForMissingOptions prompt parsed
    let options := resolved.2
    match cliScope W "createProject" with
    | none =>
      { events := cliGreeting ++ resolved.1, pipeline := none
        completion := .rejected ⟨"createProject is not defined"⟩ }
    | some .other =>
      { events := cliGreeting ++ resolved.1, pipeline := none
        completion := .rejected ⟨"createProject is not a function"⟩ }
    | some (.pipeline run) =>
      let r := run options
      match r.completion with
      | .exited code =>
        { events := cliGreeting ++ resolved.1 ++ r.events, pipeline := some r
          completion := .exited code }
      | .rejected e =>
        { events := cliGreeting ++ resolved.1 ++ r.events, pipeline := some r
          completion := .rejected e }
      | .crashed e =>
        { events := cliGreeting ++ resolved.1 ++ r.events, pipeline := some r
          completion := .crashed e }
      | .returned _ =>
        { events := cliGreeting ++ resolved.1 ++ r.events ++
            [Event.animation "neon" "\n You have succesfully installed the Dapp. \n"]
          pipeline := some r
          completion := .resolved }

/-- The pipeline run that `cli` would start if line 73 called the imported
`createBlockchainDapp` on the resolved options. -/
def intendedPipeline (W : World) (arg : List String → Except JsError ArgResult)
    (prompt : List Question → Answers) (args : List String) : Option MainRun :=
  match parseArgumentsIntoOptions arg args with
  | .error _ => none
  | .ok parsed => some (createBlockchainDapp W (promptForMissingOptions prompt parsed).2)

/-! ## Auxiliary definitions -/

/-- The actions that belong to a step of the pipeline. -/
def Event.isStepAction : Event → Bool
  | .ncp _ _ _ => true
  | .createWriteStream _ _ => true
  | .writeGitignore _ _ => true
  | .writeFile _ _ _ => true
  | .execa _ _ _ => true
  | .projectInstall _ => true
  | _ => false

/-- The declared task list without the "Initialize git" task. -/
def taskListWithoutGit (W : World) (options : Config) : List Task :=
  [ { title := "Copy project files", task := fun _ => copyTemplateFiles W options },
    { title := "Create gitignore", task := fun _ => createGitignore W options },
    { title := "Create License", task := fun _ => createLicense W options },
    { title := "Install dependencies", task := fun _ => installDependencies W options,
      skip := some (fun _ => installSkip options) } ]

/-- The result recorded for a step whose action settled: completed, or failed
with the `message` of the rejection value. -/
def TaskState.ofResult (r : Except JsError Unit) : TaskState :=
  match r with
  | .ok _ => .completed
  | .error e => .failed e.message

/-- Whether a recorded result is a failure. -/
def TaskState.isFailed : TaskState → Bool
  | .failed _ => true
  | _ => false

/-- The report that section 4.4 of the specification assigns to a run: one
result per enabled step, in declaration order, each decided by the step's own
skip predicate and action alone, whatever the other steps did. -/
def specReport (W : World) (options : Config) : List (String × TaskState) :=
  [("Copy project files", TaskState.ofResult (copyTemplateFiles W options).result),
   ("Create gitignore", TaskState.ofResult (createGitignore W options).result),
   ("Create License", TaskState.ofResult (createLicense W options).result)] ++
  (if Truthy.truthy options.git then
    [("Initialize git", TaskState.ofResult (initGit W options).result)]
  else []) ++
  [("Install dependencies",
    if Truthy.truthy options.runInstall then
      TaskState.ofResult (installDependencies W options).result
    else TaskState.skipped (some "Pass --install to automatically install dependencies"))]

/-- The step actions of such a run, in order: every enabled step that is not
skipped performs its action, whatever the other steps did. -/
def specStepEvents (W : World) (options : Config) : List Event :=
  (copyTemplateFiles W options).events ++ (createGitignore W options).events ++
  (createLicense W options).events ++
  (if Truthy.truthy options.git then (initGit W options).events else []) ++
  (if Truthy.truthy options.runInstall then (installDependencies W options).events else [])

/-- The line written once the awaited run has resolved. -/
def doneLine (W : World) : Event :=
  Event.consoleLog (W.chalk "green.bold" "DONE" ++ " Dapp ready")

/-! ## Sample worlds and inputs -/

/-- A world in which every request succeeds. -/
def sampleWorld : World :=
  { cwd := "/home/user/app"
    modulePathname := "/opt/create-blockchain-dapp/src/main.js"
    year := 2022
    licenseText := "Copyright (c) <year> <copyright holders>"
    pathResolve := fun segments => "/".intercalate segments
    pathJoin := fun a b => a ++ "/" ++ b
    toLowerCase := fun s => s.toLower
    chalk := fun _ text => text
    access := fun _ => .ok ()
    ncp := fun _ _ => .ok ()
    streamError := fun _ => none
    writeGitignore := fun _ => .ok ()
    writeFile := fun _ _ => .ok ()
    execa := fun _ _ _ => .ok { failed := false }
    projectInstall := fun _ => .ok () }

/-- The sample world, except that no template directory is readable. -/
def unreadableWorld : World :=
  { sampleWorld with access := fun _ => .error ⟨"ENOENT: no such file or directory"⟩ }

/-- The sample world, except that the recursive copy fails. -/
def copyFailsWorld : World :=
  { sampleWorld with ncp := fun _ _ => .error [⟨"EACCES: permission denied"⟩] }

/-- The sample world, except that the `.gitignore` stream cannot be opened. -/
def streamFailsWorld : World :=
  { sampleWorld with streamError := fun _ => some ⟨"EACCES: permission denied, open"⟩ }

/-- The sample world, except that the target directory cannot be written: the
recursive copy fails and the `.gitignore` stream cannot be opened. -/
def unwritableTargetWorld : World :=
  { sampleWorld with
    ncp := fun _ _ => .error [⟨"EACCES: permission denied, mkdir"⟩]
    streamError := fun _ => some ⟨"EACCES: permission denied, open"⟩ }

/-- The sample world, except that `git init` exits with status 128, on which
execa (whose `reject` option is on unless switched off) rejects the promise
with its own error. -/
def gitFailsWorld : World :=
  { sampleWorld with
    execa := fun _ _ _ => .error ⟨"Command failed with exit code 128: git init"⟩ }

/-- Options with every prompt skipped, template "basic", git and install on. -/
def sampleOptions : Options :=
  { skipPrompts := some true, git := some true, template := some "basic",
    runInstall := some true }

/-- The sample options with git and install off. -/
def bareOptions : Options :=
  { skipPrompts := some true, git := some false, template := some "basic",
    runInstall := some false }

/-- Options as parsed from an argument vector whose first positional argument
is the empty string, prompts not skipped. -/
def emptyTemplateOptions : Options :=
  { skipPrompts := some false, git := some false, template := some "",
    runInstall := some true }

/-- Options as parsed from an argument vector whose first positional argument
is the empty string, prompts skipped. -/
def emptyTemplateYesOptions : Options :=
  { skipPrompts := some true, git := some false, template := some "",
    runInstall := some true }

/-- Options as parsed from an argument vector with the git flag only. -/
def askOptions : Options :=
  { skipPrompts := some false, git := some true, template := none,
    runInstall := some true }

/-- Options as parsed from an argument vector with the yes flag only. -/
def yesOptions : Options :=
  { skipPrompts := some true, git := some false, template := none,
    runInstall := some true }

/-- An interactive provider that answers the only template choice and declines
git. -/
def samplePrompt (_ : List Question) : Answers :=
  { template := some "React-hardhat", git := some false }

/-- A reading of an argument vector against the flag table of `cli.js`: each
flag or alias sets its flag to `true`, any other argument that starts with a
dash is refused, the remaining arguments are positional. -/
def sampleArg (argv : List String) : Except JsError ArgResult :=
  argv.foldlM
    (fun acc a =>
      if a = "--git" ∨ a = "-g" then .ok { acc with git := some true }
      else if a = "--yes" ∨ a = "-y" then .ok { acc with yes := some true }
      else if a = "--install" ∨ a = "-i" then .ok { acc with install := some true }
      else if 1 < a.length ∧ a.front = '-' then
        .error ⟨"unknown or unexpected option: " ++ a⟩
      else .ok { acc with positional := acc.positional ++ [a] })
    { yes := none, git := none, install := none, positional := [] }

/-! ## Facts about the task runner -/

/-- A run of a task reports an error exactly when its state is failed. -/
theorem Task.run_error_isSome (t : Task) : t.run.error.isSome = t.run.state.isFailed := by
  unfold Task.run
  by_cases hs : Truthy.truthy t.skipValue
  · simp [hs, TaskState.isFailed]
  · simp only [hs, Bool.false_eq_true, if_false]
    cases (t.task ()).died with
    | some e => rfl
    | none => cases (t.task ()).result <;> rfl

theorem runTasks_false_thrown (ts : List Task) :
    (Listr.runTasks false ts).thrown = none := by
  induction ts with
  | nil => rfl
  | cons t ts ih =>
    unfold Listr.runTasks
    by_cases h : t.isEnabled
    · cases hd : t.run.died <;> cases he : t.run.error <;> simp [h, hd, he, ih]
    · simp [h, ih]

/-- The error list of a run is empty exactly when no recorded result is a
failure. -/
theorem runTasks_false_errors_isEmpty (ts : List Task) :
    (Listr.runTasks false ts).errors.isEmpty =
      !((Listr.runTasks false ts).report.any (fun entry => entry.2.isFailed)) := by
  induction ts with
  | nil => rfl
  | cons t ts ih =>
    unfold Listr.runTasks
    by_cases h : t.isEnabled
    · have hf := Task.run_error_isSome t
      cases hd : t.run.died with
      | some e => simp [h, hd]
      | none =>
        cases he : t.run.error with
        | some e =>
          rw [he] at hf
          simp [h, hd, he, ← hf]
        | none =>
          rw [he] at hf
          simp [h, hd, he, ← hf, ih]
    · simp [h, ih]

/-- The promise of a run with `exitOnError` off rejects with the aggregate
error exactly when some recorded result is a failure. -/
theorem settle_runTasks_false (ts : List Task) :
    Listr.settle (Listr.runTasks false ts) =
      if (Listr.runTasks false ts).report.any (fun entry => entry.2.isFailed) then
        .error ⟨"Something went wrong"⟩
      else .ok () := by
  unfold Listr.settle
  rw [runTasks_false_thrown, runTasks_false_errors_isEmpty]
  cases (Listr.runTasks false ts).report.any (fun entry => entry.2.isFailed) <;> rfl

theorem runTasks_false_of_no_death (ts : List Task)
    (hd : ∀ t ∈ ts.filter Task.isEnabled, t.run.died = none) :
    (Listr.runTasks false ts).report =
        (ts.filter Task.isEnabled).map (fun t => (t.title, t.run.state)) ∧
      (Listr.runTasks false ts).events =
        (ts.filter Task.isEnabled).flatMap (fun t => t.run.events) ∧
      (Listr.runTasks false ts).died = none := by
  induction ts with
  | nil => exact ⟨rfl, rfl, rfl⟩
  | cons t ts ih =>
    unfold Listr.runTasks
    by_cases h : t.isEnabled
    · have hdt : t.run.died = none := hd t (by simp [h])
      have ih := ih (fun u hu => hd u (by
        rw [List.filter_cons_of_pos h]
        exact List.mem_cons_of_mem _ hu))
      cases he : t.run.error <;> simp [h, hdt, he, ih]
    · have ih := ih (fun u hu => hd u (by
        rw [List.filter_cons_of_neg h]
        exact hu))
      simp [h, ih]

theorem Task.run_state_eq (t : Task) :
    t.run.state =
      if Truthy.truthy t.skipValue then TaskState.skipped t.skipValue
      else if (t.task ()).died.isSome then TaskState.pending
      else TaskState.ofResult (t.task ()).result := by
  unfold Task.run
  by_cases hs : Truthy.truthy t.skipValue
  · simp [hs]
  · simp only [hs, Bool.false_eq_true, if_false]
    cases (t.task ()).died with
    | some e => rfl
    | none => cases (t.task ()).result <;> rfl

theorem Task.run_events_eq (t : Task) :
    t.run.events = if Truthy.truthy t.skipValue then [] else (t.task ()).events := by
  unfold Task.run
  by_cases hs : Truthy.truthy t.skipValue
  · simp [hs]
  · simp only [hs, Bool.false_eq_true, if_false]
    cases (t.task ()).died with
    | some e => rfl
    | none => cases (t.task ()).result <;> rfl

theorem Task.run_died_eq (t : Task) :
    t.run.died = if Truthy.truthy t.skipValue then none else (t.task ()).died := by
  unfold Task.run
  by_cases hs : Truthy.truthy t.skipValue
  · simp [hs]
  · simp only [hs, Bool.false_eq_true, if_false]
    cases (t.task ()).died with
    | some e => rfl
    | none => cases (t.task ()).result <;> rfl

/-! ## Facts about the step library and the declared task list -/

/-- The three ways `initGit` settles: a rejection of the `execa` promise
propagates unchanged, a resolved result with `failed` set gives "Failed to
initialize git", any other resolved result gives success without a value. -/
theorem initGit_result (W : World) (options : Config) :
    (∀ e, W.execa "git" ["init"] options.targetDirectory = .error e →
      (initGit W options).result = .error e) ∧
    (W.execa "git" ["init"] options.targetDirectory = .ok { failed := true } →
      (initGit W options).result = .error ⟨"Failed to initialize git"⟩) ∧
    (W.execa "git" ["init"] options.targetDirectory = .ok { failed := false } →
      (initGit W options).result = .ok ()) := by
  refine ⟨?_, ?_, ?_⟩ <;> intro h <;> (try intro h) <;> simp [initGit, h]

theorem enabled_of_git (W : World) (options : Config)
    (h : Truthy.truthy options.git = true) :
    (taskList W options).filter Task.isEnabled = taskList W options := by
  simp [taskList, Task.isEnabled, h, List.filter]

theorem enabled_of_not_git (W : World) (options : Config)
    (h : Truthy.truthy options.git = false) :
    (taskList W options).filter Task.isEnabled = taskListWithoutGit W options := by
  simp [taskList, taskListWithoutGit, Task.isEnabled, h, List.filter]

theorem truthy_git_iff (git : Option Bool) : Truthy.truthy git = true ↔ git = some true := by
  cases git with
  | none => simp [Truthy.truthy]
  | some b => cases b <;> simp [Truthy.truthy]

theorem truthy_none_string : Truthy.truthy (none : Option String) = false := rfl

theorem truthy_skip_reason :
    Truthy.truthy (some "Pass --install to automatically install dependencies") = true := by
  decide

theorem installSkip_of_truthy (options : Config)
    (h : Truthy.truthy options.runInstall = true) : installSkip options = none := by
  simp [installSkip, h]

theorem installSkip_of_falsy (options : Config)
    (h : Truthy.truthy options.runInstall = false) :
    installSkip options = some "Pass --install to automatically install dependencies" := by
  simp [installSkip, h]

/-- When the `.gitignore` stream emits no error, the run of the declared task
list records the report and performs the step actions that the specification
prescribes, and the process is not ended. -/
theorem runTasks_taskList (W : World) (options : Config)
    (hs : W.streamError (W.pathJoin options.targetDirectory ".gitignore") = none) :
    (Listr.runTasks false (taskList W options)).report = specReport W options ∧
    (Listr.runTasks false (taskList W options)).events = specStepEvents W options ∧
    (Listr.runTasks false (taskList W options)).died = none := by
  have hstream : (createGitignore W options).died = none := hs
  have hd : ∀ t ∈ (taskList W options).filter Task.isEnabled, t.run.died = none := by
    intro t ht
    have htl := (List.mem_filter.mp ht).1
    rw [Task.run_died_eq]
    simp only [taskList, List.mem_cons, List.mem_singleton, List.not_mem_nil, or_false] at htl
    rcases htl with rfl | rfl | rfl | rfl | rfl
    · simp [Task.skipValue, copyTemplateFiles]
    · simp [Task.skipValue, hstream]
    · simp [Task.skipValue, createLicense]
    · simp [Task.skipValue, initGit]
    · simp [installDependencies]
  obtain ⟨hrep, hev, hdied⟩ := runTasks_false_of_no_death _ hd
  refine ⟨?_, ?_, hdied⟩
  · rw [hrep]
    cases hg : Truthy.truthy options.git <;> cases hi : Truthy.truthy options.runInstall
    all_goals
      first
      | rw [enabled_of_git W options hg]
      | rw [enabled_of_not_git W options hg]
    all_goals
      simp [taskList, taskListWithoutGit, specReport, Task.run_state_eq, Task.skipValue,
        hg, hi, hstream, truthy_none_string, truthy_skip_reason,
        installSkip_of_truthy, installSkip_of_falsy, copyTemplateFiles, createLicense,
        initGit, installDependencies]
  · rw [hev]
    cases hg : Truthy.truthy options.git <;> cases hi : Truthy.truthy options.runInstall
    all_goals
      first
      | rw [enabled_of_git W options hg]
      | rw [enabled_of_not_git W options hg]
    all_goals
      simp [taskList, taskListWithoutGit, specStepEvents, Task.run_events_eq, Task.skipValue,
        hg, hi, truthy_none_string, truthy_skip_reason,
        installSkip_of_truthy, installSkip_of_falsy]

/-- Every prescribed step action is a step action. -/
theorem specStepEvents_isStepAction (W : World) (options : Config) (ev : Event)
    (h : ev ∈ specStepEvents W options) : ev.isStepAction = true := by
  simp only [specStepEvents, copyTemplateFiles, createGitignore, createLicense, initGit,
    installDependencies, List.mem_append] at h
  rcases h with (((h | h) | h) | h) | h
  · simp at h; subst h; rfl
  · simp at h; rcases h with rfl | rfl <;> rfl
  · simp at h; subst h; rfl
  · split at h
    · simp at h; subst h; rfl
    · simp at h
  · split at h
    · simp at h; subst h; rfl
    · simp at h

/-! ## Facts about createBlockchainDapp -/

/-- With a readable template the task list is run, so a report exists. -/
theorem report_of_readable (W : World) (options : Options) (template : String)
    (ht : options.template = some template)
    (hr : W.access (configOf W options template).templateDirectory = .ok ()) :
    (createBlockchainDapp W options).report =
      some (Listr.runTasks false (taskList W (configOf W options template))).report := by
  unfold createBlockchainDapp
  simp only [ht, hr]
  cases (Listr.runTasks false (taskList W (configOf W options template))).died with
  | some e => rfl
  | none =>
    simp only []
    cases Listr.settle (Listr.runTasks false (taskList W (configOf W options template)))
      <;> rfl

/-- With a readable template and a `.gitignore` stream that emits no error,
the run of `createBlockchainDapp` is the access check, the prescribed step
actions and report, and then either the final line and `true`, when no
recorded result is a failure, or the rejection with the aggregate error. -/
theorem createBlockchainDapp_of_stream_ok (W : World) (options : Options)
    (template : String) (ht : options.template = some template)
    (hr : W.access (configOf W options template).templateDirectory = .ok ())
    (hs : W.streamError
      (W.pathJoin (configOf W options template).targetDirectory ".gitignore") = none) :
    (createBlockchainDapp W options).report =
      some (specReport W (configOf W options template)) ∧
    (createBlockchainDapp W options).events =
      Event.access (configOf W options template).templateDirectory ::
        specStepEvents W (configOf W options template) ++
        (if (specReport W (configOf W options template)).any (fun entry => entry.2.isFailed)
          then [] else [doneLine W]) ∧
    (createBlockchainDapp W options).completion =
      (if (specReport W (configOf W options template)).any (fun entry => entry.2.isFailed)
        then Completion.rejected ⟨"Something went wrong"⟩ else Completion.returned true) := by
  obtain ⟨hrep, hev, hdied⟩ := runTasks_taskList W (configOf W options template) hs
  have hsettle := settle_runTasks_false (taskList W (configOf W options template))
  rw [hrep] at hsettle
  unfold createBlockchainDapp
  simp only [ht, hr, hdied, hsettle, hrep, hev]
  cases (specReport W (configOf W options template)).any (fun entry => entry.2.isFailed)
    <;> simp [doneLine]

/-! ## Claims -/

/-- C1, counterexample: the template is readable and git is on, but the
`.gitignore` stream cannot be opened; the process is ended during the second
step, and only the first step has a recorded result, not five. -/
theorem C1_counterexample_stream_error :
    sampleOptions.git = some true ∧
    streamFailsWorld.access (configOf streamFailsWorld sampleOptions "basic").templateDirectory
      = .ok () ∧
    (createBlockchainDapp streamFailsWorld sampleOptions).report =
      some [("Copy project files", TaskState.completed)] ∧
    (createBlockchainDapp streamFailsWorld sampleOptions).completion =
      Completion.crashed ⟨"EACCES: permission denied, open"⟩ ∧
    Event.execa "git" ["init"] (configOf streamFailsWorld sampleOptions "basic").targetDirectory
      ∉ (createBlockchainDapp streamFailsWorld sampleOptions).events := by
  refine ⟨rfl, rfl, by decide, by decide, by decide⟩

/-- C1, as amended: for every configuration whose template directory is
readable and whose `.gitignore` write stream emits no error, the tasks
reported by the run of `createBlockchainDapp` are exactly the five declared
tasks filtered by their `enabled` predicate, in declaration order; with
`options.git` true all five are reported, and with `options.git` false the
report has four entries, "Initialize git" is not among them and `git init` is
not run. -/
theorem C1_report_is_enabled_tasks_in_order (W : World) (options : Options)
    (template : String) (ht : options.template = some template)
    (hr : W.access (configOf W options template).templateDirectory = .ok ())
    (hs : W.streamError
      (W.pathJoin (configOf W options template).targetDirectory ".gitignore") = none) :
    (taskList W (configOf W options template)).map Task.title =
        ["Copy project files", "Create gitignore", "Create License", "Initialize git",
          "Install dependencies"] ∧
    ∃ report, (createBlockchainDapp W options).report = some report ∧
      report.map Prod.fst =
        ((taskList W (configOf W options template)).filter Task.isEnabled).map Task.title ∧
      (options.git = some true →
        report.length = 5 ∧
        report.map Prod.fst =
          ["Copy project files", "Create gitignore", "Create License", "Initialize git",
            "Install dependencies"]) ∧
      (options.git = some false →
        report.length = 4 ∧
        report.map Prod.fst =
          ["Copy project files", "Create gitignore", "Create License",
            "Install dependencies"] ∧
        (∀ state, ("Initialize git", state) ∉ report) ∧
        Event.execa "git" ["init"] (configOf W options template).targetDirectory ∉
          (createBlockchainDapp W options).events) := by
  obtain ⟨hrep, hev, _⟩ := createBlockchainDapp_of_stream_ok W options template ht hr hs
  have hgit : (configOf W options template).git = options.git := rfl
  refine ⟨rfl, _, hrep, ?_, ?_, ?_⟩
  · cases hg : Truthy.truthy (configOf W options template).git
    · rw [enabled_of_not_git W _ hg]
      simp [specReport, hg, taskListWithoutGit]
    · rw [enabled_of_git W _ hg]
      simp [specReport, hg, taskList]
  · intro hg
    have hg2 : Truthy.truthy (configOf W options template).git = true := by
      rw [hgit, hg]; rfl
    simp [specReport, hg2]
  · intro hg
    have hg2 : Truthy.truthy (configOf W options template).git = false := by
      rw [hgit, hg]; rfl
    refine ⟨by simp [specReport, hg2], by simp [specReport, hg2], ?_, ?_⟩
    · intro state hmem
      simp [specReport, hg2] at hmem
    · rw [hev]
      intro hmem
      simp only [specStepEvents, hg2, copyTemplateFiles, createGitignore, createLicense,
        installDependencies, doneLine] at hmem
      cases hi : Truthy.truthy (configOf W options template).runInstall <;>
        cases hf : (specReport W (configOf W options template)).any
          (fun entry => entry.2.isFailed) <;>
        simp [hi, hf] at hmem

/-- Witness of C1 as amended, in the sample world with git on: five tasks are
reported. -/
theorem C1_report_is_enabled_tasks_in_order_witness :
    sampleOptions.template = some "basic" ∧
    sampleWorld.access (configOf sampleWorld sampleOptions "basic").templateDirectory = .ok () ∧
    sampleWorld.streamError (sampleWorld.pathJoin
      (configOf sampleWorld sampleOptions "basic").targetDirectory ".gitignore") = none ∧
    ∃ report, (createBlockchainDapp sampleWorld sampleOptions).report = some report ∧
      report.length = 5 := by
  obtain ⟨_, report, h, _, h5, _⟩ :=
    C1_report_is_enabled_tasks_in_order sampleWorld sampleOptions "basic" rfl rfl rfl
  exact ⟨rfl, rfl, rfl, report, h, (h5 rfl).1⟩

/-- C2, counterexample: the target directory cannot be written, so the copy
step fails and the `.gitignore` stream cannot be opened; the process is ended
during the second step, and no step after the failed one gets a result or
performs its action. -/
theorem C2_counterexample_copy_fails_then_stream_error :
    unwritableTargetWorld.access
      (configOf unwritableTargetWorld sampleOptions "basic").templateDirectory = .ok () ∧
    (copyTemplateFiles unwritableTargetWorld
      (configOf unwritableTargetWorld sampleOptions "basic")).result = .error ⟨none⟩ ∧
    (createBlockchainDapp unwritableTargetWorld sampleOptions).report =
      some [("Copy project files", TaskState.failed none)] ∧
    (createBlockchainDapp unwritableTargetWorld sampleOptions).completion =
      Completion.crashed ⟨"EACCES: permission denied, open"⟩ ∧
    Event.execa "git" ["init"]
      (configOf unwritableTargetWorld sampleOptions "basic").targetDirectory ∉
        (createBlockchainDapp unwritableTargetWorld sampleOptions).events ∧
    Event.projectInstall (configOf unwritableTargetWorld sampleOptions "basic").targetDirectory ∉
      (createBlockchainDapp unwritableTargetWorld sampleOptions).events := by
  refine ⟨rfl, rfl, by decide, by decide, by decide, by decide⟩

/-- C2, as amended: for every configuration with a readable template whose
`.gitignore` write stream emits no error, the report and the step actions of
the run are those prescribed step by step, whatever the outcomes of the
actions: when the action of an enabled task fails, every enabled task after
it still has its own result at its position, decided by its own skip
predicate and action, and its action is performed unless it is skipped. In
particular, when "Initialize git" fails, "Install dependencies" still has its
result and, with the install flag on, `projectInstall` is still called. -/
theorem C2_failed_step_does_not_halt (W : World) (options : Options)
    (template : String) (ht : options.template = some template)
    (hr : W.access (configOf W options template).templateDirectory = .ok ())
    (hs : W.streamError
      (W.pathJoin (configOf W options template).targetDirectory ".gitignore") = none) :
    ∃ report, (createBlockchainDapp W options).report = some report ∧
      report = specReport W (configOf W options template) ∧
      (createBlockchainDapp W options).events =
        Event.access (configOf W options template).templateDirectory ::
          specStepEvents W (configOf W options template) ++
          (if report.any (fun entry => entry.2.isFailed) then [] else [doneLine W]) ∧
      (∀ (i j : Nat) (title : String) (output : Option String)
          (entry : String × TaskState),
        report[i]? = some (title, TaskState.failed output) → i < j →
        (specReport W (configOf W options template))[j]? = some entry →
          report[j]? = some entry) ∧
      (options.git = some true →
        ∀ e, (initGit W (configOf W options template)).result = .error e →
          report[3]? = some ("Initialize git", TaskState.failed e.message) ∧
          report[4]? = some ("Install dependencies",
            if options.runInstall = some true then
              TaskState.ofResult
                (W.projectInstall (configOf W options template).targetDirectory)
            else
              TaskState.skipped
                (some "Pass --install to automatically install dependencies")) ∧
          (options.runInstall = some true →
            Event.projectInstall (configOf W options template).targetDirectory ∈
              (createBlockchainDapp W options).events)) := by
  obtain ⟨hrep, hev, _⟩ := createBlockchainDapp_of_stream_ok W options template ht hr hs
  have hgit : (configOf W options template).git = options.git := rfl
  have hinst : (configOf W options template).runInstall = options.runInstall := rfl
  refine ⟨_, hrep, rfl, hev, ?_, ?_⟩
  · intro i j title output entry _ _ hj
    exact hj
  · intro hg e he
    have hg2 : Truthy.truthy (configOf W options template).git = true := by
      rw [hgit, hg]; rfl
    refine ⟨by simp [specReport, hg2, he, TaskState.ofResult], ?_, ?_⟩
    · cases hi : Truthy.truthy (configOf W options template).runInstall
      · have hne : options.runInstall ≠ some true := by
          intro h
          rw [hinst, h] at hi
          exact absurd hi (by decide)
        simp [specReport, hg2, hi, hne]
      · have heq : options.runInstall = some true := by
          rw [hinst] at hi
          exact (truthy_git_iff _).mp hi
        simp [specReport, hg2, hi, heq, installDependencies]
    · intro hi
      have hi2 : Truthy.truthy (configOf W options template).runInstall = true := by
        rw [hinst, hi]; rfl
      rw [hev]
      refine List.mem_append_left _ (List.mem_cons_of_mem _ ?_)
      simp [specStepEvents, hi2, installDependencies]

/-- Witness of C2 as amended, in a world where `git init` fails, with git and
install on: the failed step is recorded and `projectInstall` is still
called. -/
theorem C2_failed_step_does_not_halt_witness :
    sampleOptions.template = some "basic" ∧
    gitFailsWorld.access (configOf gitFailsWorld sampleOptions "basic").templateDirectory
      = .ok () ∧
    gitFailsWorld.streamError (gitFailsWorld.pathJoin
      (configOf gitFailsWorld sampleOptions "basic").targetDirectory ".gitignore") = none ∧
    (initGit gitFailsWorld (configOf gitFailsWorld sampleOptions "basic")).result =
      .error ⟨"Command failed with exit code 128: git init"⟩ ∧
    Event.projectInstall (configOf gitFailsWorld sampleOptions "basic").targetDirectory ∈
      (createBlockchainDapp gitFailsWorld sampleOptions).events := by
  obtain ⟨_, _, _, _, _, h⟩ :=
    C2_failed_step_does_not_halt gitFailsWorld sampleOptions "basic" rfl rfl rfl
  exact ⟨rfl, rfl, rfl, rfl, (h rfl _ rfl).2.2 rfl⟩

/-- C3: for every configuration, when the computed template directory is not
readable `createBlockchainDapp` ends the process with exit status 1 before the
task list is run: its only actions are the access check, the error line and
the exit, none of them a step action, and no report is produced. It is the
only path on which the call exits, and for a configuration with a template
name the only one on which no task list is run. -/
theorem C3_unreadable_template_exits_before_any_step (W : World) (options : Options)
    (template : String) (ht : options.template = some template) (err : JsError)
    (hr : W.access (configOf W options template).templateDirectory = .error err) :
    (createBlockchainDapp W options).completion = Completion.exited 1 ∧
    (createBlockchainDapp W options).report = none ∧
    (createBlockchainDapp W options).events =
      [Event.access (configOf W options template).templateDirectory,
        Event.consoleError (W.chalk "red.bold" "ERROR" ++ " Invalid template name"),
        Event.processExit 1] ∧
    (∀ ev ∈ (createBlockchainDapp W options).events, ev.isStepAction = false) ∧
    (∀ (other : Options) (code : Nat),
      (createBlockchainDapp W other).completion = Completion.exited code →
        code = 1 ∧ ∃ t e, other.template = some t ∧
          W.access (configOf W other t).templateDirectory = .error e) ∧
    (∀ (other : Options) (t : String), other.template = some t →
      ((createBlockchainDapp W other).report = none ↔
        ∃ e, W.access (configOf W other t).templateDirectory = .error e)) := by
  have hrun : createBlockchainDapp W options =
      { events := [Event.access (configOf W options template).templateDirectory,
          Event.consoleError (W.chalk "red.bold" "ERROR" ++ " Invalid template name"),
          Event.processExit 1]
        report := none
        completion := .exited 1 } := by
    unfold createBlockchainDapp
    simp only [ht, hr]
  refine ⟨by rw [hrun], by rw [hrun], by rw [hrun], ?_, ?_, ?_⟩
  · intro ev hev
    rw [hrun] at hev
    simp only [List.mem_cons, List.mem_singleton, List.not_mem_nil, or_false] at hev
    rcases hev with rfl | rfl | rfl <;> rfl
  · intro other code hc
    unfold createBlockchainDapp at hc
    cases hto : other.template with
    | none => simp [hto] at hc
    | some t =>
      simp only [hto] at hc
      cases ha : W.access (configOf W other t).templateDirectory with
      | error e =>
        simp only [ha] at hc
        exact ⟨by injection hc with h; exact h.symm, t, e, rfl, ha⟩
      | ok u =>
        simp only [ha] at hc
        split at hc
        · simp at hc
        · split at hc <;> simp at hc
  · intro other t hto
    constructor
    · intro hrep
      cases ha : W.access (configOf W other t).templateDirectory with
      | error e => exact ⟨e, rfl⟩
      | ok u =>
        have := report_of_readable W other t hto ha
        rw [hrep] at this
        exact absurd this (by simp)
    · rintro ⟨e, ha⟩
      unfold createBlockchainDapp
      simp only [hto, ha]

/-- Witness of C3 in a world where no template directory is readable. -/
theorem C3_unreadable_template_exits_before_any_step_witness :
    sampleOptions.template = some "basic" ∧
    unreadableWorld.access (configOf unreadableWorld sampleOptions "basic").templateDirectory
      = .error ⟨"ENOENT: no such file or directory"⟩ ∧
    (createBlockchainDapp unreadableWorld sampleOptions).completion = Completion.exited 1 ∧
    (createBlockchainDapp unreadableWorld sampleOptions).report = none :=
  have h := C3_unreadable_template_exits_before_any_step unreadableWorld sampleOptions
    "basic" rfl ⟨"ENOENT: no such file or directory"⟩ rfl
  ⟨rfl, rfl, h.1, h.2.1⟩

/-- C4, counterexample: with a readable template, when the recursive copy
fails the awaited run rejects with the aggregate error, and when the
`.gitignore` stream cannot be opened the process is ended during the run; in
neither case does the call return `true` or write the "Dapp ready" line. -/
theorem C4_counterexample_copy_fails :
    copyFailsWorld.access (configOf copyFailsWorld sampleOptions "basic").templateDirectory
      = .ok () ∧
    (createBlockchainDapp copyFailsWorld sampleOptions).completion =
      Completion.rejected ⟨"Something went wrong"⟩ ∧
    (createBlockchainDapp copyFailsWorld sampleOptions).completion ≠ Completion.returned true ∧
    doneLine copyFailsWorld ∉ (createBlockchainDapp copyFailsWorld sampleOptions).events ∧
    streamFailsWorld.access (configOf streamFailsWorld sampleOptions "basic").templateDirectory
      = .ok () ∧
    (createBlockchainDapp streamFailsWorld sampleOptions).completion ≠
      Completion.returned true ∧
    doneLine streamFailsWorld ∉ (createBlockchainDapp streamFailsWorld sampleOptions).events := by
  refine ⟨rfl, rfl, by decide, by decide, rfl, by decide, by decide⟩

/-- C4, as amended: for every configuration with a readable template whose
`.gitignore` write stream emits no error, and for every combination of
outcomes of the step actions, step errors are captured as per-step results:
every enabled step has its result in the report and a failing action is
recorded as a failure. When no recorded result is a failure the awaited run
completes without raising, the "Dapp ready" line is written last and the call
returns `true`. When some recorded result is a failure the awaited run raises
the aggregate error "Something went wrong", which `createBlockchainDapp` does
not catch: the "Dapp ready" line is not written and the call rejects. -/
theorem C4_step_errors_recorded_run_rejects_iff_failed (W : World) (options : Options)
    (template : String) (ht : options.template = some template)
    (hr : W.access (configOf W options template).templateDirectory = .ok ())
    (hs : W.streamError
      (W.pathJoin (configOf W options template).targetDirectory ".gitignore") = none) :
    ∃ report, (createBlockchainDapp W options).report = some report ∧
      report = specReport W (configOf W options template) ∧
      report.map Prod.fst =
        ((taskList W (configOf W options template)).filter Task.isEnabled).map Task.title ∧
      ((∀ e, (copyTemplateFiles W (configOf W options template)).result = .error e →
          ("Copy project files", TaskState.failed e.message) ∈ report) ∧
        (∀ e, (createGitignore W (configOf W options template)).result = .error e →
          ("Create gitignore", TaskState.failed e.message) ∈ report) ∧
        (∀ e, (createLicense W (configOf W options template)).result = .error e →
          ("Create License", TaskState.failed e.message) ∈ report) ∧
        (∀ e, options.git = some true →
          (initGit W (configOf W options template)).result = .error e →
          ("Initialize git", TaskState.failed e.message) ∈ report) ∧
        (∀ e, options.runInstall = some true →
          (installDependencies W (configOf W options template)).result = .error e →
          ("Install dependencies", TaskState.failed e.message) ∈ report)) ∧
      ((∀ entry ∈ report, entry.2.isFailed = false) →
        (createBlockchainDapp W options).completion = Completion.returned true ∧
        (createBlockchainDapp W options).events.getLast? = some (doneLine W)) ∧
      ((∃ entry ∈ report, entry.2.isFailed = true) →
        (createBlockchainDapp W options).completion =
          Completion.rejected ⟨"Something went wrong"⟩ ∧
        doneLine W ∉ (createBlockchainDapp W options).events) := by
  obtain ⟨hrep, hev, hcomp⟩ := createBlockchainDapp_of_stream_ok W options template ht hr hs
  have hgit : (configOf W options template).git = options.git := rfl
  have hinst : (configOf W options template).runInstall = options.runInstall := rfl
  refine ⟨_, hrep, rfl, ?_, ⟨?_, ?_, ?_, ?_, ?_⟩, ?_, ?_⟩
  · cases hg : Truthy.truthy (configOf W options template).git
    · rw [enabled_of_not_git W _ hg]
      simp [specReport, hg, taskListWithoutGit]
    · rw [enabled_of_git W _ hg]
      simp [specReport, hg, taskList]
  · intro e he
    simp [specReport, he, TaskState.ofResult]
  · intro e he
    simp [specReport, he, TaskState.ofResult]
  · intro e he
    simp [specReport, he, TaskState.ofResult]
  · intro e hg he
    have hg2 : Truthy.truthy (configOf W options template).git = true := by
      rw [hgit, hg]; rfl
    simp [specReport, hg2, he, TaskState.ofResult]
  · intro e hi he
    have hi2 : Truthy.truthy (configOf W options template).runInstall = true := by
      rw [hinst, hi]; rfl
    simp [specReport, hi2, he, TaskState.ofResult]
  · intro hno
    have hany : (specReport W (configOf W options template)).any
        (fun entry => entry.2.isFailed) = false := by
      rw [List.any_eq_false]
      intro entry hmem
      simp [hno entry hmem]
    rw [hcomp, hev, hany]
    exact ⟨rfl, List.getLast?_concat _⟩
  · rintro ⟨entry, hmem, hf⟩
    have hany : (specReport W (configOf W options template)).any
        (fun entry => entry.2.isFailed) = true :=
      List.any_eq_true.mpr ⟨entry, hmem, hf⟩
    rw [hcomp, hev, hany]
    refine ⟨rfl, ?_⟩
    intro hin
    simp only [if_true, List.append_nil, List.mem_cons] at hin
    rcases hin with h | h
    · exact Event.noConfusion h
    · have := specStepEvents_isStepAction W _ _ h
      simp [doneLine, Event.isStepAction] at this

/-- Witness of C4 as amended: in the sample world no step fails and the call
returns `true`; in the world where the copy fails the call rejects with the
aggregate error. -/
theorem C4_step_errors_recorded_run_rejects_iff_failed_witness :
    sampleOptions.template = some "basic" ∧
    sampleWorld.access (configOf sampleWorld sampleOptions "basic").templateDirectory = .ok () ∧
    sampleWorld.streamError (sampleWorld.pathJoin
      (configOf sampleWorld sampleOptions "basic").targetDirectory ".gitignore") = none ∧
    (createBlockchainDapp sampleWorld sampleOptions).completion = Completion.returned true ∧
    copyFailsWorld.access (configOf copyFailsWorld sampleOptions "basic").templateDirectory
      = .ok () ∧
    copyFailsWorld.streamError (copyFailsWorld.pathJoin
      (configOf copyFailsWorld sampleOptions "basic").targetDirectory ".gitignore") = none ∧
    (createBlockchainDapp copyFailsWorld sampleOptions).completion =
      Completion.rejected ⟨"Something went wrong"⟩ := by
  obtain ⟨report, _, hspec, _, _, hok, _⟩ :=
    C4_step_errors_recorded_run_rejects_iff_failed sampleWorld sampleOptions "basic"
      rfl rfl rfl
  obtain ⟨report2, _, hspec2, _, _, _, hbad⟩ :=
    C4_step_errors_recorded_run_rejects_iff_failed copyFailsWorld sampleOptions "basic"
      rfl rfl rfl
  subst hspec
  subst hspec2
  exact ⟨rfl, rfl, rfl, (hok (by decide)).1, rfl, rfl, (hbad (by decide)).1⟩

/-- C8, counterexample: the template is readable but the `.gitignore` stream
cannot be opened; the process is ended before the install step. With the
install flag on `projectInstall` is never called, and with the install flag
off no result, Skipped or other, is recorded for "Install dependencies". -/
theorem C8_counterexample_stream_error :
    streamFailsWorld.access (configOf streamFailsWorld sampleOptions "basic").templateDirectory
      = .ok () ∧
    sampleOptions.runInstall = some true ∧
    Event.projectInstall (configOf streamFailsWorld sampleOptions "basic").targetDirectory ∉
      (createBlockchainDapp streamFailsWorld sampleOptions).events ∧
    streamFailsWorld.access (configOf streamFailsWorld bareOptions "basic").templateDirectory
      = .ok () ∧
    bareOptions.runInstall = some false ∧
    (createBlockchainDapp streamFailsWorld bareOptions).report =
      some [("Copy project files", TaskState.completed)] := by
  refine ⟨rfl, rfl, by decide, rfl, rfl, by decide⟩

/-- C8, as amended: for every configuration with a readable template whose
`.gitignore` write stream emits no error, when the install flag is false the
skip predicate of "Install dependencies" returns a non-empty reason, the step
is recorded as Skipped with that reason and `projectInstall` is never called;
when the install flag is true the skip predicate returns no reason and
`projectInstall` is called in the target directory. -/
theorem C8_install_skipped_iff_flag_false (W : World) (options : Options)
    (template : String) (ht : options.template = some template)
    (hr : W.access (configOf W options template).templateDirectory = .ok ())
    (hs : W.streamError
      (W.pathJoin (configOf W options template).targetDirectory ".gitignore") = none) :
    (options.runInstall = some false →
      ∃ reason, installSkip (configOf W options template) = some reason ∧ reason ≠ "" ∧
        (∃ report, (createBlockchainDapp W options).report = some report ∧
          ("Install dependencies", TaskState.skipped (some reason)) ∈ report ∧
          ∀ state, ("Install dependencies", state) ∈ report →
            state = TaskState.skipped (some reason)) ∧
        ∀ cwd, Event.projectInstall cwd ∉ (createBlockchainDapp W options).events) ∧
    (options.runInstall = some true →
      installSkip (configOf W options template) = none ∧
      Event.projectInstall (configOf W options template).targetDirectory ∈
        (createBlockchainDapp W options).events) := by
  obtain ⟨hrep, hev, _⟩ := createBlockchainDapp_of_stream_ok W options template ht hr hs
  have hinst : (configOf W options template).runInstall = options.runInstall := rfl
  constructor
  · intro hi
    have hi2 : Truthy.truthy (configOf W options template).runInstall = false := by
      rw [hinst, hi]; rfl
    refine ⟨_, installSkip_of_falsy _ hi2, by decide, ⟨_, hrep, ?_, ?_⟩, ?_⟩
    · simp [specReport, hi2]
    · intro state hmem
      cases hg : Truthy.truthy (configOf W options template).git <;>
        simpa [specReport, hi2, hg] using hmem
    · intro cwd hin
      rw [hev] at hin
      simp only [specStepEvents, hi2, copyTemplateFiles, createGitignore, createLicense,
        initGit, doneLine] at hin
      cases hg : Truthy.truthy (configOf W options template).git <;>
        cases hf : (specReport W (configOf W options template)).any
          (fun entry => entry.2.isFailed) <;>
        simp [hg, hf] at hin
  · intro hi
    have hi2 : Truthy.truthy (configOf W options template).runInstall = true := by
      rw [hinst, hi]; rfl
    refine ⟨installSkip_of_truthy _ hi2, ?_⟩
    rw [hev]
    refine List.mem_append_left _ (List.mem_cons_of_mem _ ?_)
    simp [specStepEvents, hi2, installDependencies]

/-- Witness of C8 as amended: with the install flag off `projectInstall` is
not called, with the install flag on it is. -/
theorem C8_install_skipped_iff_flag_false_witness :
    bareOptions.template = some "basic" ∧
    sampleWorld.access (configOf sampleWorld bareOptions "basic").templateDirectory = .ok () ∧
    sampleWorld.streamError (sampleWorld.pathJoin
      (configOf sampleWorld bareOptions "basic").targetDirectory ".gitignore") = none ∧
    bareOptions.runInstall = some false ∧
    (∀ cwd, Event.projectInstall cwd ∉ (createBlockchainDapp sampleWorld bareOptions).events) ∧
    sampleOptions.runInstall = some true ∧
    Event.projectInstall (configOf sampleWorld sampleOptions "basic").targetDirectory ∈
      (createBlockchainDapp sampleWorld sampleOptions).events := by
  obtain ⟨_, _, _, _, h⟩ :=
    (C8_install_skipped_iff_flag_false sampleWorld bareOptions "basic" rfl rfl rfl).1 rfl
  exact ⟨rfl, rfl, rfl, rfl, h, rfl,
    ((C8_install_skipped_iff_flag_false sampleWorld sampleOptions "basic" rfl rfl rfl).2
      rfl).2⟩

/-- C9, at the failing input: `git init` exits with status 128 and execa
rejects with its own error. `initGit` fails with that error, whose message is
not "Failed to initialize git", and the "Initialize git" step is recorded as
Failed with execa's message. -/
theorem C9_initGit_fails_with_execa_error :
    gitFailsWorld.execa "git" ["init"]
        (configOf gitFailsWorld sampleOptions "basic").targetDirectory =
      .error ⟨"Command failed with exit code 128: git init"⟩ ∧
    (initGit gitFailsWorld (configOf gitFailsWorld sampleOptions "basic")).result =
      .error ⟨"Command failed with exit code 128: git init"⟩ ∧
    (initGit gitFailsWorld (configOf gitFailsWorld sampleOptions "basic")).result ≠
      .error ⟨"Failed to initialize git"⟩ ∧
    (createBlockchainDapp gitFailsWorld sampleOptions).report.map (fun r => r[3]?) =
      some (some ("Initialize git",
        TaskState.failed "Command failed with exit code 128: git init")) := by
  refine ⟨rfl, rfl, ?_, by decide⟩
  intro h
  have hm := congrArg (fun r => match r with
    | Except.error e => e.message
    | Except.ok _ => "") h
  revert hm
  decide

/-- C10: for every argument vector accepted by the parser, with or without
the install flag, `parseArgumentsIntoOptions` returns `runInstall` true; the
options resolved from it, whatever the interactive provider answers, keep
`runInstall` true, never false, and the skip predicate of "Install
dependencies" yields no reason for them. -/
theorem C10_runInstall_always_true (arg : List String → Except JsError ArgResult)
    (rawArgs : List String) (parsed : Options)
    (h : parseArgumentsIntoOptions arg rawArgs = .ok parsed) :
    parsed.runInstall = some true ∧
    ∀ (prompt : List Question → Answers) (W : World) (template : String),
      (promptForMissingOptions prompt parsed).2.runInstall = some true ∧
      (promptForMissingOptions prompt parsed).2.runInstall ≠ some false ∧
      installSkip (configOf W (promptForMissingOptions prompt parsed).2 template) = none := by
  have hp : parsed.runInstall = some true := by
    unfold parseArgumentsIntoOptions at h
    cases ha : arg (rawArgs.drop 2) with
    | error e => simp [ha] at h
    | ok args =>
      simp only [ha] at h
      injection h with h
      rw [← h]
      show some (orDefault args.install true) = some true
      cases hi : args.install with
      | none => rfl
      | some b => cases b <;> rfl
  refine ⟨hp, fun prompt W template => ?_⟩
  have hr : (promptForMissingOptions prompt parsed).2.runInstall = some true := by
    unfold promptForMissingOptions
    by_cases hs : Truthy.truthy parsed.skipPrompts <;> simp [hs, hp]
  refine ⟨hr, by rw [hr]; decide, ?_⟩
  have hc : (configOf W (promptForMissingOptions prompt parsed).2 template).runInstall
      = some true := hr
  simp [installSkip, Truthy.truthy, hc]

/-- Witness of C10 for an argument vector without the install flag. -/
theorem C10_runInstall_always_true_witness :
    parseArgumentsIntoOptions sampleArg ["node", "create-blockchain-dapp", "--git"] =
      .ok askOptions ∧
    askOptions.runInstall = some true :=
  ⟨rfl,
    (C10_runInstall_always_true sampleArg ["node", "create-blockchain-dapp", "--git"]
      _ rfl).1⟩

/-- C6, counterexample: the template was supplied as the empty string and
prompts are not skipped; the template question is asked all the same and the
answer replaces the supplied value. -/
theorem C6_counterexample_empty_template :
    emptyTemplateOptions.template = some "" ∧
    Truthy.truthy emptyTemplateOptions.skipPrompts = false ∧
    templateQuestion ∈ questionsFor emptyTemplateOptions ∧
    (promptForMissingOptions samplePrompt emptyTemplateOptions).2.template =
      some "React-hardhat" ∧
    (promptForMissingOptions samplePrompt emptyTemplateOptions).2.template ≠
      emptyTemplateOptions.template := by
  decide

/-- C6, as amended: for every options record with `skipPrompts` false and
every answer set, `promptForMissingOptions` calls the interactive provider
once with a question list that holds the template question if and only if
`options.template` is missing or the empty string, and the git question if and
only if `options.git` is not true; in the result, template equals
`options.template` whenever a non-empty one was supplied (otherwise the
answered template), git equals true whenever `options.git` was true (otherwise
the answered git), and all other fields are unchanged. -/
theorem C6_prompt_only_for_missing_or_empty (options : Options)
    (prompt : List Question → Answers)
    (hs : Truthy.truthy options.skipPrompts = false) :
    (promptForMissingOptions prompt options).1 = [Event.prompt (questionsFor options)] ∧
    (templateQuestion ∈ questionsFor options ↔
      (options.template = none ∨ options.template = some "")) ∧
    (gitQuestion ∈ questionsFor options ↔ options.git ≠ some true) ∧
    (∀ t, options.template = some t → t ≠ "" →
      (promptForMissingOptions prompt options).2.template = some t) ∧
    ((options.template = none ∨ options.template = some "") →
      (promptForMissingOptions prompt options).2.template =
        (prompt (questionsFor options)).template) ∧
    (options.git = some true → (promptForMissingOptions prompt options).2.git = some true) ∧
    (options.git ≠ some true →
      (promptForMissingOptions prompt options).2.git = (prompt (questionsFor options)).git) ∧
    (promptForMissingOptions prompt options).2.skipPrompts = options.skipPrompts ∧
    (promptForMissingOptions prompt options).2.runInstall = options.runInstall ∧
    (promptForMissingOptions prompt options).2.targetDirectory = options.targetDirectory := by
  have hne : templateQuestion ≠ gitQuestion := by decide
  have htruthy : Truthy.truthy options.template = false ↔
      (options.template = none ∨ options.template = some "") := by
    cases ht : options.template with
    | none => simp [Truthy.truthy]
    | some t => simp [Truthy.truthy]
  have hgit : Truthy.truthy options.git = false ↔ options.git ≠ some true := by
    cases hg : options.git with
    | none => simp [Truthy.truthy]
    | some b => cases b <;> simp [Truthy.truthy]
  have hres : promptForMissingOptions prompt options =
      ([Event.prompt (questionsFor options)],
        { options with
          template := jsOr options.template (prompt (questionsFor options)).template
          git := jsOr options.git (prompt (questionsFor options)).git }) := by
    unfold promptForMissingOptions
    simp [hs]
  rw [hres]
  refine ⟨rfl, ?_, ?_, ?_, ?_, ?_, ?_, rfl, rfl, rfl⟩
  · rw [← htruthy]
    unfold questionsFor
    by_cases h1 : Truthy.truthy options.template <;>
      by_cases h2 : Truthy.truthy options.git <;> simp [h1, h2, hne]
  · rw [← hgit]
    unfold questionsFor
    by_cases h1 : Truthy.truthy options.template <;>
      by_cases h2 : Truthy.truthy options.git <;> simp [h1, h2, hne.symm]
  · intro t ht hn
    simp [jsOr, ht, Truthy.truthy, hn]
  · intro h
    have := htruthy.mpr h
    simp [jsOr, this]
  · intro h
    simp [jsOr, h, Truthy.truthy]
  · intro h
    have := hgit.mpr h
    simp [jsOr, this]

/-- Witness of C6 as amended: no template supplied, prompts not skipped. -/
theorem C6_prompt_only_for_missing_or_empty_witness :
    Truthy.truthy askOptions.skipPrompts = false ∧
    (promptForMissingOptions samplePrompt askOptions).2.template = some "React-hardhat" ∧
    (promptForMissingOptions samplePrompt askOptions).2.git = some true :=
  have h := C6_prompt_only_for_missing_or_empty askOptions samplePrompt rfl
  ⟨rfl, h.2.2.2.2.1 (Or.inl rfl), h.2.2.2.2.2.1 rfl⟩

/-- C7, counterexample: the template was supplied as the empty string and
prompts are skipped; the returned template is the default "basic", not the
supplied value. -/
theorem C7_counterexample_empty_template :
    emptyTemplateYesOptions.template = some "" ∧
    emptyTemplateYesOptions.skipPrompts = some true ∧
    (promptForMissingOptions samplePrompt emptyTemplateYesOptions).2.template =
      some "basic" ∧
    (promptForMissingOptions samplePrompt emptyTemplateYesOptions).2.template ≠
      emptyTemplateYesOptions.template := by
  decide

/-- C7, as amended: for every options record with `skipPrompts` true,
`promptForMissingOptions` never calls the interactive provider, and returns
the input options with template equal to `options.template` when a non-empty
one was supplied and equal to the fixed default "basic" when it is missing or
the empty string; every other field is returned unchanged. -/
theorem C7_skip_prompts_defaults_template (options : Options)
    (prompt : List Question → Answers) (hs : options.skipPrompts = some true) :
    (promptForMissingOptions prompt options).1 = [] ∧
    (∀ questions, Event.prompt questions ∉ (promptForMissingOptions prompt options).1) ∧
    (∀ t, options.template = some t → t ≠ "" →
      (promptForMissingOptions prompt options).2.template = some t) ∧
    ((options.template = none ∨ options.template = some "") →
      (promptForMissingOptions prompt options).2.template = some "basic") ∧
    (promptForMissingOptions prompt options).2.git = options.git ∧
    (promptForMissingOptions prompt options).2.runInstall = options.runInstall ∧
    (promptForMissingOptions prompt options).2.skipPrompts = options.skipPrompts ∧
    (promptForMissingOptions prompt options).2.targetDirectory = options.targetDirectory := by
  have hres : promptForMissingOptions prompt options =
      ([], { options with template := jsOr options.template (some "basic") }) := by
    unfold promptForMissingOptions
    simp [hs, Truthy.truthy]
  rw [hres]
  refine ⟨rfl, by simp, ?_, ?_, rfl, rfl, rfl, rfl⟩
  · intro t ht hn
    simp [jsOr, ht, Truthy.truthy, hn]
  · rintro (h | h) <;> simp [jsOr, h, Truthy.truthy]

/-- Witness of C7 as amended: prompts skipped, no template supplied. -/
theorem C7_skip_prompts_defaults_template_witness :
    yesOptions.skipPrompts = some true ∧
    (promptForMissingOptions samplePrompt yesOptions).2.template = some "basic" :=
  ⟨rfl, (C7_skip_prompts_defaults_template yesOptions samplePrompt rfl).2.2.2.1 (Or.inl rfl)⟩

/-- C5, on the code: the identifier called at line 73 of `cli.js`,
`createProject`, is bound by no import or declaration of the module. For every
world, parser, provider and argument vector `cli` therefore starts no pipeline
run and ends by rejecting; when the options resolve, the error is the
ReferenceError for `createProject`, although the imported
`createBlockchainDapp` would have run on them. At the argument vector
`basic --yes` no step action is performed. -/
theorem C5_cli_calls_unbound_identifier :
    (∀ (W : World) (arg : List String → Except JsError ArgResult)
        (prompt : List Question → Answers) (args : List String),
      (cli W arg prompt args).pipeline.isNone = true ∧
      (∃ e, (cli W arg prompt args).completion = CliCompletion.rejected e) ∧
      (∀ parsed, parseArgumentsIntoOptions arg args = .ok parsed →
        (cli W arg prompt args).completion =
          CliCompletion.rejected ⟨"createProject is not defined"⟩ ∧
        (intendedPipeline W arg prompt args).isSome = true)) ∧
    (cli sampleWorld sampleArg samplePrompt
        ["node", "create-blockchain-dapp", "basic", "--yes"]).completion =
      CliCompletion.rejected ⟨"createProject is not defined"⟩ ∧
    (∀ ev ∈ (cli sampleWorld sampleArg samplePrompt
        ["node", "create-blockchain-dapp", "basic", "--yes"]).events,
      ev.isStepAction = false) := by
  have hscope : ∀ W : World, (cliScope W "createProject").isNone = true := fun _ => by
    unfold cliScope
    simp
  refine ⟨?_, rfl, by decide⟩
  intro W arg prompt args
  have hnone : cliScope W "createProject" = none := Option.isNone_iff_eq_none.mp (hscope W)
  unfold cli intendedPipeline
  cases hp : parseArgumentsIntoOptions arg args with
  | error e => simp
  | ok parsed => simp [hnone]

end Dapp
